import Mathlib

/-!
Verification development for the SusrushaEClinic backend core:
the PhonePe payment-gateway client (request signing, webhook signature
verification, amount conversion) from payments/phonepe_service.py, and the
consultation state machine / reschedule workflow and sequential ID
generation from consultations/models.py.

Conventions of the shallow embedding:
- Byte strings are lists of naturals (each < 256); Python str values are
  Lean String, converted to bytes by UTF-8 encoding.
- 32-bit machine words are naturals reduced modulo 2^32; all bitwise
  operations are written with plain division / remainder arithmetic so that
  every definition evaluates inside the kernel.
- Timestamps are integers (seconds); calendar dates are integers (days) and
  times of day are integers (seconds within the day), so that a combined
  datetime is date * 86400 + time.
- Python exceptions (Django ValidationError, ValueError) are modelled with
  Except String; a raised exception corresponds to Except.error, and the
  mutated-object result of a successful method call is carried in Except.ok.
-/

set_option maxRecDepth 100000

/-! ## 32-bit word arithmetic (pure div / mod, kernel friendly) -/

/-- Modulus of 32-bit words. -/
def M32 : ℕ := 4294967296

/-- Bitwise xor of two naturals, restricted to the low k bits (fuel form). -/
def xorW : ℕ → ℕ → ℕ → ℕ
  | 0, _, _ => 0
  | k + 1, a, b => (if a % 2 = b % 2 then 0 else 1) + 2 * xorW k (a / 2) (b / 2)

/-- Bitwise and of two naturals, restricted to the low k bits (fuel form). -/
def andW : ℕ → ℕ → ℕ → ℕ
  | 0, _, _ => 0
  | k + 1, a, b => (a % 2) * (b % 2) + 2 * andW k (a / 2) (b / 2)

/-- 32-bit xor. -/
def xor32 (a b : ℕ) : ℕ := xorW 32 a b

/-- 32-bit and. -/
def and32 (a b : ℕ) : ℕ := andW 32 a b

/-- 32-bit complement (input is expected to be a 32-bit word). -/
def not32 (a : ℕ) : ℕ := 4294967295 - a % M32

/-- 32-bit modular addition. -/
def add32 (a b : ℕ) : ℕ := (a + b) % M32

/-- Rotate a 32-bit word right by n positions. -/
def rotr (n x : ℕ) : ℕ := x % M32 / 2 ^ n + x % 2 ^ n * 2 ^ (32 - n)

/-- Logical right shift of a 32-bit word by n positions. -/
def shr (n x : ℕ) : ℕ := x % M32 / 2 ^ n

/-! ## SHA-256 (FIPS 180-4), over byte lists -/

/-- SHA-256 big sigma 0. -/
def bsig0 (x : ℕ) : ℕ := xor32 (xor32 (rotr 2 x) (rotr 13 x)) (rotr 22 x)

/-- SHA-256 big sigma 1. -/
def bsig1 (x : ℕ) : ℕ := xor32 (xor32 (rotr 6 x) (rotr 11 x)) (rotr 25 x)

/-- SHA-256 small sigma 0. -/
def ssig0 (x : ℕ) : ℕ := xor32 (xor32 (rotr 7 x) (rotr 18 x)) (shr 3 x)

/-- SHA-256 small sigma 1. -/
def ssig1 (x : ℕ) : ℕ := xor32 (xor32 (rotr 17 x) (rotr 19 x)) (shr 10 x)

/-- SHA-256 choice function. -/
def chF (x y z : ℕ) : ℕ := xor32 (and32 x y) (and32 (not32 x) z)

/-- SHA-256 majority function. -/
def majF (x y z : ℕ) : ℕ := xor32 (xor32 (and32 x y) (and32 x z)) (and32 y z)

/-- The 64 SHA-256 round constants (FIPS 180-4 section 4.2.2), written in
decimal. -/
def sha256K : List ℕ :=
  [1116352408, 1899447441, 3049323471, 3921009573, 961987163,
   1508970993, 2453635748, 2870763221, 3624381080, 310598401,
   607225278, 1426881987, 1925078388, 2162078206, 2614888103,
   3248222580, 3835390401, 4022224774, 264347078, 604807628,
   770255983, 1249150122, 1555081692, 1996064986, 2554220882,
   2821834349, 2952996808, 3210313671, 3336571891, 3584528711,
   113926993, 338241895, 666307205, 773529912, 1294757372,
   1396182291, 1695183700, 1986661051, 2177026350, 2456956037,
   2730485921, 2820302411, 3259730800, 3345764771, 3516065817,
   3600352804, 4094571909, 275423344, 430227734, 506948616,
   659060556, 883997877, 958139571, 1322822218, 1537002063,
   1747873779, 1955562222, 2024104815, 2227730452, 2361852424,
   2428436474, 2756734187, 3204031479, 3329325298]

/-- Working state of the SHA-256 compression function (eight 32-bit words). -/
structure Sha256State where
  a : ℕ
  b : ℕ
  c : ℕ
  d : ℕ
  e : ℕ
  f : ℕ
  g : ℕ
  h : ℕ
deriving DecidableEq

/-- Initial SHA-256 hash value (FIPS 180-4 section 5.3.3), written in
decimal. -/
def sha256H0 : Sha256State :=
  ⟨1779033703, 3144134277, 1013904242, 2773480762,
   1359893119, 2600822924, 528734635, 1541459225⟩

/-- One message-schedule extension step; the argument list holds the schedule
words produced so far in reverse order (most recent first). -/
def wnext (wrev : List ℕ) : ℕ :=
  add32 (add32 (ssig1 (wrev.getD 1 0)) (wrev.getD 6 0))
        (add32 (ssig0 (wrev.getD 14 0)) (wrev.getD 15 0))

/-- Extend the reversed schedule list by k further words. -/
def extendW : ℕ → List ℕ → List ℕ
  | 0, wrev => wrev
  | k + 1, wrev => extendW k (wnext wrev :: wrev)

/-- Full 64-word message schedule from a 16-word block. -/
def schedule (block16 : List ℕ) : List ℕ := (extendW 48 block16.reverse).reverse

/-- One SHA-256 compression round, consuming a (round constant, schedule word)
pair. -/
def sha256Round (s : Sha256State) (kw : ℕ × ℕ) : Sha256State :=
  let t1 := add32 s.h (add32 (bsig1 s.e) (add32 (chF s.e s.f s.g) (add32 kw.1 kw.2)))
  let t2 := add32 (bsig0 s.a) (majF s.a s.b s.c)
  ⟨add32 t1 t2, s.a, s.b, s.c, add32 s.d t1, s.e, s.f, s.g⟩

/-- Compress one 16-word block into the running hash state. -/
def compressBlock (s : Sha256State) (block16 : List ℕ) : Sha256State :=
  let t := (sha256K.zip (schedule block16)).foldl sha256Round s
  ⟨add32 s.a t.a, add32 s.b t.b, add32 s.c t.c, add32 s.d t.d,
   add32 s.e t.e, add32 s.f t.f, add32 s.g t.g, add32 s.h t.h⟩

/-- Big-endian 8-byte encoding of a natural (the message bit length field). -/
def be64 (n : ℕ) : List ℕ :=
  [n / 2 ^ 56 % 256, n / 2 ^ 48 % 256, n / 2 ^ 40 % 256, n / 2 ^ 32 % 256,
   n / 2 ^ 24 % 256, n / 2 ^ 16 % 256, n / 2 ^ 8 % 256, n % 256]

/-- SHA-256 message padding: append 0x80, zero bytes, and the 64-bit
big-endian bit length, reaching a multiple of 64 bytes. -/
def padMsg (msg : List ℕ) : List ℕ :=
  msg ++ (128 :: List.replicate ((119 - msg.length % 64) % 64) 0) ++ be64 (8 * msg.length)

/-- Group a byte list into big-endian 32-bit words (four bytes per word). -/
def bytesToWords : List ℕ → List ℕ
  | a :: b :: c :: d :: rest => (((a * 256 + b) * 256 + c) * 256 + d) :: bytesToWords rest
  | _ => []

/-- Consume a padded message 64 bytes at a time (fuel = number of blocks). -/
def sha256Blocks : ℕ → Sha256State → List ℕ → Sha256State
  | 0, s, _ => s
  | n + 1, s, bytes =>
    sha256Blocks n (compressBlock s (bytesToWords (bytes.take 64))) (bytes.drop 64)

/-- SHA-256 of a byte list, as the final eight-word hash state. -/
def sha256 (msg : List ℕ) : Sha256State :=
  let p := padMsg msg
  sha256Blocks (p.length / 64) sha256H0 p

/-! ## Hex digests, UTF-8 and base64 -/

/-- The lowercase hexadecimal alphabet. -/
def hexDigits : List Char := "0123456789abcdef".data

/-- Hex character of a nibble. -/
def hexChar (n : ℕ) : Char := hexDigits.getD n '0'

/-- Eight lowercase hex characters of a 32-bit word, most significant first. -/
def wordHex (w : ℕ) : List Char :=
  [hexChar (w / 16 ^ 7 % 16), hexChar (w / 16 ^ 6 % 16), hexChar (w / 16 ^ 5 % 16),
   hexChar (w / 16 ^ 4 % 16), hexChar (w / 16 ^ 3 % 16), hexChar (w / 16 ^ 2 % 16),
   hexChar (w / 16 % 16), hexChar (w % 16)]

/-- Lowercase hex digest of the SHA-256 of a byte list, as in Python
hashlib.sha256(...).hexdigest(). -/
def sha256hexBytes (msg : List ℕ) : String :=
  let s := sha256 msg
  ⟨wordHex s.a ++ wordHex s.b ++ wordHex s.c ++ wordHex s.d ++
   wordHex s.e ++ wordHex s.f ++ wordHex s.g ++ wordHex s.h⟩

/-- UTF-8 encoding of a single code point, as Python str.encode() produces. -/
def utf8EncodeChar (n : ℕ) : List ℕ :=
  if n < 0x80 then [n]
  else if n < 0x800 then [0xc0 + n / 64, 0x80 + n % 64]
  else if n < 0x10000 then [0xe0 + n / 4096, 0x80 + n / 64 % 64, 0x80 + n % 64]
  else [0xf0 + n / 262144, 0x80 + n / 4096 % 64, 0x80 + n / 64 % 64, 0x80 + n % 64]

/-- UTF-8 byte encoding of a string (Python str.encode()). -/
def utf8Bytes (s : String) : List ℕ :=
  s.data.foldr (fun ch acc => utf8EncodeChar ch.toNat ++ acc) []

/-- Lowercase hex digest of the SHA-256 of the UTF-8 encoding of a string. -/
def sha256hexStr (s : String) : String := sha256hexBytes (utf8Bytes s)

/-- The base64 alphabet. -/
def b64Alphabet : List Char :=
  "ABCDEFGHIJKLMNOPQRSTUVWXYZabcdefghijklmnopqrstuvwxyz0123456789+/".data

/-- Base64 character of a 6-bit group. -/
def b64Char (n : ℕ) : Char := b64Alphabet.getD n 'A'

/-- Standard base64 encoding of a byte list, with '=' padding, as Python
base64.b64encode produces. -/
def b64encList : List ℕ → List Char
  | [] => []
  | [a] => [b64Char (a / 4), b64Char (a % 4 * 16), '=', '=']
  | [a, b] => [b64Char (a / 4), b64Char (a % 4 * 16 + b / 16), b64Char (b % 16 * 4), '=']
  | a :: b :: c :: rest =>
    b64Char (a / 4) :: b64Char (a % 4 * 16 + b / 16) ::
    b64Char (b % 16 * 4 + c / 64) :: b64Char (c % 64) :: b64encList rest

/-! ## PhonePe service operations (payments/phonepe_service.py) -/

/-- The sandbox default salt key of PhonePeService (settings default). -/
def sandboxSaltKey : String := "96434309-7796-489d-8924-ab56988a6076"

/-- PhonePeService._encode_base64: base64 of the compact JSON serialization.
The argument is the compact JSON text already produced by json.dumps with
separators (",", ":"); JSON serialization itself is outside the embedding. -/
def encode_base64 (payloadJson : String) : String :=
  ⟨b64encList (utf8Bytes payloadJson)⟩

/-- PhonePeService._generate_x_verify_header: the X-VERIFY value is the hex
SHA-256 of payload_string + endpoint + salt_key, then "###" and the salt
index. -/
def generate_x_verify_header (payload_string endpoint salt_key salt_index : String) : String :=
  sha256hexStr (payload_string ++ endpoint ++ salt_key) ++ "###" ++ salt_index

/-- One pass of Python str.split(sep) for a non-empty separator: scan left to
right, emitting the accumulated segment whenever sep occurs.  The fuel is at
least the length of the remaining text plus one, so it never runs out. -/
def splitGo (sep : List Char) : ℕ → List Char → List Char → List (List Char)
  | 0, acc, _ => [acc.reverse]
  | _ + 1, acc, [] => [acc.reverse]
  | fuel + 1, acc, c :: rest =>
    if sep.isPrefixOf (c :: rest) then
      acc.reverse :: splitGo sep fuel [] ((c :: rest).drop sep.length)
    else
      splitGo sep fuel (c :: acc) rest

/-- Python str.split(sep) for a non-empty separator. -/
def pySplit (sep s : String) : List String :=
  (splitGo sep.data (s.data.length + 1) [] s.data).map fun l => ⟨l⟩

/-- PhonePeService.verify_webhook_signature: split the header on "###",
require exactly two parts, recompute SHA256(payload + salt_key) and compare
with the received hash.  hmac.compare_digest is equality of the two digest
strings (its constant-time behavior is a timing property outside the
embedding); the try/except wrapper never fires here because all the modelled
operations are total. -/
def verify_webhook_signature (salt_key payload x_verify_header : String) : Bool :=
  match pySplit "###" x_verify_header with
  | [received_hash, _salt_index] =>
    sha256hexStr (payload ++ salt_key) == received_hash
  | _ => false

/-! ## Binary64 model for the amount conversion of initiate_payment -/

/-- An exact rational value as a numerator / denominator pair; every value
built below keeps the denominator positive.  A dedicated structure is used
instead of the library rationals so that all arithmetic reduces inside the
kernel. -/
structure Frac where
  num : ℤ
  den : ℤ
deriving DecidableEq

/-- Floor of a fraction with positive denominator. -/
def fracFloor (x : Frac) : ℤ := x.num.fdiv x.den

/-- Round a fraction with positive denominator to the nearest integer, ties
to even. -/
def roundHalfEvenF (x : Frac) : ℤ :=
  let f := fracFloor x
  let r2 := 2 * (x.num - f * x.den)
  if r2 < x.den then f
  else if x.den < r2 then f + 1
  else if f % 2 = 0 then f
  else f + 1

/-- The dyadic value m * 2 ^ e as a fraction. -/
def dyadicF (m : ℤ) (e : ℤ) : Frac :=
  if 0 ≤ e then ⟨m * 2 ^ e.toNat, 1⟩ else ⟨m, 2 ^ (-e).toNat⟩

/-- Normalize a positive fraction into a mantissa in the interval [1, 2) and
a binary exponent (fuel form; the fuel bounds the exponent magnitude). -/
def normExpF : ℕ → Frac → ℤ → Frac × ℤ
  | 0, a, e => (a, e)
  | fuel + 1, a, e =>
    if a.num < a.den then normExpF fuel ⟨2 * a.num, a.den⟩ (e - 1)
    else if 2 * a.den ≤ a.num then normExpF fuel ⟨a.num, 2 * a.den⟩ (e + 1)
    else (a, e)

/-- Round an exact rational to the nearest IEEE 754 binary64 value (normal
range; overflow and subnormals do not arise for currency amounts). -/
def toDoubleF (q : Frac) : Frac :=
  if q.num = 0 then ⟨0, 1⟩
  else
    let p := normExpF 3000 ⟨(q.num.natAbs : ℤ), q.den⟩ 0
    let mant := roundHalfEvenF ⟨p.1.num * 4503599627370496, p.1.den⟩
    let v := dyadicF mant (p.2 - 52)
    if q.num < 0 then ⟨-v.num, v.den⟩ else v

/-- Python int() on a float value: truncation toward zero. -/
def pyTruncF (q : Frac) : ℤ :=
  if q.num < 0 then -((-q.num).fdiv q.den) else q.num.fdiv q.den

/-- Multiplication of a fraction by the integer 100 (exact). -/
def mul100 (q : Frac) : Frac := ⟨q.num * 100, q.den⟩

/-- The amount conversion performed by PhonePeService.initiate_payment
(line 73): amount_in_paise = int(float(amount) * 100).  The argument is the
exact rational value of the amount; float() rounds it to binary64, the
product with 100 (itself exact in binary64) is rounded to binary64 again,
and int() truncates toward zero. -/
def amount_in_paise (amount : Frac) : ℤ :=
  pyTruncF (toDoubleF (mul100 (toDoubleF amount)))

/-- Modelled from the spec, for comparison with amount_in_paise: convert the
amount to minor units as round(amount * 100) as integer, in precision-safe
exact arithmetic (Python round is half-to-even). -/
def spec_minor_units (amount : Frac) : ℤ := roundHalfEvenF (mul100 amount)

/-! ## Consultation state machine (consultations/models.py) -/

/-- Consultation status values (STATUS_CHOICES). -/
inductive Status
  | scheduled
  | patient_checked_in
  | ready_for_consultation
  | in_progress
  | completed
  | cancelled
  | no_show
  | rescheduled
  | overdue
deriving DecidableEq

/-- The fields of consultations.models.Consultation that the state machine,
the reschedule workflow and the derived properties read or write.  Actor
references are opaque numeric identifiers; nullable timestamps are Option ℤ
(seconds); dates are day numbers and times are seconds within the day. -/
structure Consultation where
  scheduled_date : ℤ
  scheduled_time : ℤ
  status : Status
  checked_in_at : Option ℤ
  checked_in_by : Option ℕ
  ready_for_consultation_at : Option ℤ
  ready_marked_by : Option ℕ
  actual_start_time : Option ℤ
  cancelled_by : Option ℕ
  cancellation_reason : String
  cancelled_at : Option ℤ
  reschedule_requested : Bool
  reschedule_requested_at : Option ℤ
  reschedule_requested_by : Option ℕ
  reschedule_reason : String
  reschedule_approved : Bool
  reschedule_approved_by : Option ℕ
  reschedule_approved_at : Option ℤ
  rescheduled_at : Option ℤ
deriving DecidableEq

/-- Consultation.scheduled_datetime: date and time combined in one timezone,
expressed in seconds. -/
def scheduled_datetime (c : Consultation) : ℤ :=
  c.scheduled_date * 86400 + c.scheduled_time

/-- Consultation.is_eligible_for_reschedule: false for completed or
cancelled; otherwise the scheduled datetime must lie before now minus the
one-hour grace period (grace_period = timezone.now() - timedelta(hours=1)). -/
def is_eligible_for_reschedule (c : Consultation) (now : ℤ) : Bool :=
  if c.status = Status.completed ∨ c.status = Status.cancelled then false
  else decide (scheduled_datetime c < now - 3600)

/-- Consultation.is_checked_in: derived from the status alone. -/
def is_checked_in (c : Consultation) : Bool :=
  match c.status with
  | .patient_checked_in | .ready_for_consultation | .in_progress | .completed => true
  | _ => false

/-- ConsultationReschedule history record: the fields created by
apply_reschedule. -/
structure RescheduleRecord where
  old_date : ℤ
  old_time : ℤ
  new_date : ℤ
  new_time : ℤ
  reason : String
  requested_by : Option ℕ
deriving DecidableEq

/-- Consultation.request_reschedule: raises ValidationError (Except.error)
when the consultation is not eligible — the check precedes every field
assignment, so a failing call leaves the record untouched.  On success the
request flag, timestamp, actor and reason are set and the status is forced
to overdue. -/
def request_reschedule (c : Consultation) (now : ℤ) (requested_by : ℕ)
    (reason : String) : Except String Consultation :=
  if is_eligible_for_reschedule c now = false then
    .error "This consultation is not eligible for reschedule"
  else
    .ok { c with reschedule_requested := true,
                 reschedule_requested_at := some now,
                 reschedule_requested_by := some requested_by,
                 reschedule_reason := reason,
                 status := Status.overdue }

/-- Consultation.approve_reschedule: raises ValidationError (Except.error)
when no reschedule request is pending; the check precedes every assignment. -/
def approve_reschedule (c : Consultation) (now : ℤ) (approved_by : ℕ) :
    Except String Consultation :=
  if c.reschedule_requested = false then
    .error "No reschedule request to approve"
  else
    .ok { c with reschedule_approved := true,
                 reschedule_approved_by := some approved_by,
                 reschedule_approved_at := some now }

/-- Consultation.apply_reschedule: raises ValidationError (Except.error)
when the reschedule is not approved.  On success the old schedule is
captured, the new date and time are written, the status becomes rescheduled,
the requested/approved flags and their timestamps are cleared, the applied
timestamp is set and the reason field is cleared; then the history record is
created from the updated record (whose reschedule_requested_by field was not
cleared, exactly as in the source). -/
def apply_reschedule (c : Consultation) (now new_date new_time : ℤ)
    (reason : String) : Except String (Consultation × RescheduleRecord) :=
  if c.reschedule_approved = false then
    .error "Reschedule must be approved before applying"
  else
    let old_date := c.scheduled_date
    let old_time := c.scheduled_time
    let c' := { c with scheduled_date := new_date,
                       scheduled_time := new_time,
                       status := Status.rescheduled,
                       reschedule_requested := false,
                       reschedule_approved := false,
                       reschedule_requested_at := none,
                       reschedule_approved_at := none,
                       rescheduled_at := some now,
                       reschedule_reason := "" }
    .ok (c', { old_date := old_date, old_time := old_time,
               new_date := new_date, new_time := new_time,
               reason := reason,
               requested_by := c'.reschedule_requested_by })

/-- Consultation.check_in_patient: guarded transition returning a success
flag together with the (possibly unchanged) record. -/
def check_in_patient (c : Consultation) (now : ℤ) (checked_in_by : ℕ) :
    Bool × Consultation :=
  if c.status = Status.scheduled then
    (true, { c with status := Status.patient_checked_in,
                    checked_in_at := some now,
                    checked_in_by := some checked_in_by })
  else (false, c)

/-- Consultation.mark_ready_for_consultation: allowed from scheduled or
patient_checked_in; sets only the ready timestamp and actor. -/
def mark_ready_for_consultation (c : Consultation) (now : ℤ) (marked_by : ℕ) :
    Bool × Consultation :=
  if c.status = Status.scheduled ∨ c.status = Status.patient_checked_in then
    (true, { c with status := Status.ready_for_consultation,
                    ready_for_consultation_at := some now,
                    ready_marked_by := some marked_by })
  else (false, c)

/-- Terminal consultation statuses per the spec: section 3 Lifecycle names
cancellation and no-show as terminal, and completed has no outgoing
transition in the section 4.2 table. -/
def isTerminalStatus : Status → Bool
  | .completed | .cancelled | .no_show => true
  | _ => false

/-- Modelled from the spec: the cancel(actor, reason) operation of the
section 4.2 transition table.  The consultation model stores the
cancellation fields (models.py lines 115-124) but the cancel operation
itself lives in the consultation views, which are not under src/.  The spec
row reads: from any non-terminal status, cancel(actor, reason) moves to
cancelled and sets cancelled_by, cancellation_reason and cancelled_at = now;
invalid preconditions leave the state unchanged and signal failure. -/
def cancel (c : Consultation) (now : ℤ) (actor : ℕ) (reason : String) :
    Except String Consultation :=
  if isTerminalStatus c.status then
    .error "Cannot cancel a consultation in a terminal status"
  else
    .ok { c with status := Status.cancelled,
                 cancelled_by := some actor,
                 cancellation_reason := reason,
                 cancelled_at := some now }

/-! ## Sequential ID generation (Consultation.save, ConsultationReceipt.save) -/

/-- Numeric value of an ASCII decimal digit. -/
def digitVal (ch : Char) : Option ℕ :=
  if '0' ≤ ch ∧ ch ≤ '9' then some (ch.toNat - 48) else none

/-- Accumulate decimal digits; any non-digit character fails. -/
def parseDigitsAux : List Char → ℕ → Option ℕ
  | [], acc => some acc
  | ch :: rest, acc =>
    match digitVal ch with
    | some d => parseDigitsAux rest (acc * 10 + d)
    | none => none

/-- Python int(s) on the suffix strings arising during ID generation: an
optional sign followed by at least one decimal digit; anything else raises
ValueError, modelled as none. -/
def pyIntL : List Char → Option ℤ
  | [] => none
  | '-' :: rest =>
    if rest.isEmpty then none else (parseDigitsAux rest 0).map fun n => -(n : ℤ)
  | '+' :: rest =>
    if rest.isEmpty then none else (parseDigitsAux rest 0).map fun n => (n : ℤ)
  | l => (parseDigitsAux l 0).map fun n => (n : ℤ)

/-- Decimal digits of a natural (fuel form; 64 digits are far beyond any
sequence number). -/
def natDigitsAux : ℕ → ℕ → List Char
  | 0, _ => []
  | fuel + 1, n =>
    if n = 0 then [] else natDigitsAux fuel (n / 10) ++ [Char.ofNat (48 + n % 10)]

/-- Decimal representation of a natural. -/
def natDigits (n : ℕ) : List Char := if n = 0 then ['0'] else natDigitsAux 64 n

/-- Python zero padding f"..:0wd": the sign counts toward the width and wide
numbers are never truncated. -/
def pyZPad (w : ℕ) (n : ℤ) : String :=
  if n < 0 then
    ⟨'-' :: (List.replicate (w - 1 - (natDigits n.natAbs).length) '0' ++ natDigits n.natAbs)⟩
  else
    ⟨List.replicate (w - (natDigits n.natAbs).length) '0' ++ natDigits n.natAbs⟩

/-- Lexicographic strict order on char lists (codepoint order); stands in for
the database collation used by order_by. -/
def strLtB : List Char → List Char → Bool
  | [], [] => false
  | [], _ :: _ => true
  | _ :: _, [] => false
  | a :: as, b :: bs => if a < b then true else if b < a then false else strLtB as bs

/-- The row produced by Model.objects.order_by(field).last(): the maximum of
the stored values under the string order, or none when the table is empty. -/
def lexLast (l : List String) : Option String :=
  l.foldl (fun acc s =>
    match acc with
    | none => some s
    | some m => if strLtB m.data s.data then some s else some m) none

/-- Consultation.save ID generation (models.py lines 169-195): take the last
consultation by id order; if its id starts with "CON", increment the parsed
numeric suffix; otherwise take the last "CON"-prefixed id and increment its
suffix (0 when there is none); a failed parse restarts numbering at 1; the
new id is "CON" plus the number zero-padded to 3 digits.  The argument is
the list of existing consultation ids. -/
def generate_consultation_id (existing : List String) : String :=
  match lexLast existing with
  | none => "CON" ++ pyZPad 3 1
  | some last =>
    let newNumber : ℤ :=
      if "CON".data.isPrefixOf last.data then
        match pyIntL (last.data.drop 3) with
        | some n => n + 1
        | none => 1
      else
        match lexLast (existing.filter fun s => "CON".data.isPrefixOf s.data) with
        | some lastCon =>
          match pyIntL (lastCon.data.drop 3) with
          | some n => n + 1
          | none => 1
        | none => 1
    "CON" ++ pyZPad 3 newNumber

/-- ConsultationReceipt.save receipt number generation (models.py lines
614-626): the parse int(last_receipt.receipt_number[3:]) is not guarded by
any try/except and there is no prefix check, so a malformed stored receipt
number raises an unhandled ValueError, modelled as Except.error.  The
argument is the receipt number of the row returned by order_by(id).last(),
none when no receipt exists; on success the new number is "RCP" plus the
incremented suffix zero-padded to 6 digits. -/
def generate_receipt_number (lastReceiptNumber : Option String) : Except String String :=
  match lastReceiptNumber with
  | none => .ok ("RCP" ++ pyZPad 6 1)
  | some rn =>
    match pyIntL (rn.data.drop 3) with
    | some n => .ok ("RCP" ++ pyZPad 6 (n + 1))
    | none => .error "ValueError: invalid literal for int() with base 10"

/-! ## Concrete fixtures -/

/-- A freshly scheduled consultation: day 9, 84600 seconds into the day,
nothing recorded yet.  Its scheduled datetime is 1800 seconds (30 minutes)
before the reference instant 864000 used in the concrete statements. -/
def baseConsultation : Consultation where
  scheduled_date := 9
  scheduled_time := 84600
  status := Status.scheduled
  checked_in_at := none
  checked_in_by := none
  ready_for_consultation_at := none
  ready_marked_by := none
  actual_start_time := none
  cancelled_by := none
  cancellation_reason := ""
  cancelled_at := none
  reschedule_requested := false
  reschedule_requested_at := none
  reschedule_requested_by := none
  reschedule_reason := ""
  reschedule_approved := false
  reschedule_approved_by := none
  reschedule_approved_at := none
  rescheduled_at := none

/-- The same consultation scheduled 7200 seconds (2 hours) before the
reference instant 864000. -/
def twoHoursLate : Consultation := { baseConsultation with scheduled_time := 79200 }

/-- A consultation whose reschedule request has been approved (requested by
actor 7). -/
def approvedConsultation : Consultation :=
  { baseConsultation with
      status := Status.overdue
      reschedule_requested := true
      reschedule_requested_at := some 850000
      reschedule_requested_by := some 7
      reschedule_reason := "patient missed the slot"
      reschedule_approved := true
      reschedule_approved_by := some 2
      reschedule_approved_at := some 851000 }

example : sha256hexStr "abc" =
    "ba7816bf8f01cfea414140de5dae2223b00361a396177a9cb410ff61f20015ad" := by decide

example : sha256hexStr "" =
    "e3b0c44298fc1c149afbf4c8996fb92427ae41e4649b934ca495991b7852b855" := by decide

example : encode_base64 "p" = "cA==" := by decide



/-! ## Helper lemmas -/

/-- Success flag of an Except result. -/
def okFlag {α : Type} (e : Except String α) : Bool :=
  match e with
  | .ok _ => true
  | .error _ => false

/-- A word of 8 hex characters always has length 8. -/
theorem wordHex_length (w : ℕ) : (wordHex w).length = 8 := rfl

/-- Hex digests always have length 64. -/
theorem sha256hexBytes_length (msg : List ℕ) : (sha256hexBytes msg).length = 64 := by
  simp [sha256hexBytes, String.length, wordHex]

/-- A hex character of a reduced nibble belongs to the hex alphabet. -/
theorem hexContains (n : ℕ) : hexDigits.contains (hexChar (n % 16)) = true := by
  have hlt : n % 16 < 16 := Nat.mod_lt _ (by decide)
  have hall : ∀ m, m < 16 → hexDigits.contains (hexChar m) = true := by decide
  exact hall _ hlt

/-- All eight characters of a word digest are hex characters. -/
theorem wordHex_all_hex (w : ℕ) :
    (wordHex w).all (fun ch => hexDigits.contains ch) = true := by
  simp only [wordHex, List.all_cons, List.all_nil, hexContains, Bool.and_self, Bool.and_true]

/-- Every character of a hex digest is a lowercase hex character. -/
theorem sha256hexBytes_all_hex (msg : List ℕ) :
    (sha256hexBytes msg).data.all (fun ch => hexDigits.contains ch) = true := by
  show (wordHex (sha256 msg).a ++ wordHex (sha256 msg).b ++ wordHex (sha256 msg).c ++
        wordHex (sha256 msg).d ++ wordHex (sha256 msg).e ++ wordHex (sha256 msg).f ++
        wordHex (sha256 msg).g ++ wordHex (sha256 msg).h).all
      (fun ch => hexDigits.contains ch) = true
  simp only [List.all_append, wordHex_all_hex, Bool.and_self]

/-! ## Claim theorems -/

/-- C1: the spec states that initiate_payment converts the major-unit amount
to minor units as round(amount * 100) without floating-point precision loss,
with typical two-decimal amounts converting exactly.  The source computes
amount_in_paise = int(float(amount) * 100), which truncates the binary64
product: for the two-decimal amount 19.99 the code produces 1998 minor units
while the exact (and rounded) conversion of the spec gives 1999; the
particular amount 100.00 does convert to exactly 10000. -/
theorem initiate_payment_amount_conversion_truncates :
    amount_in_paise ⟨1999, 100⟩ = 1998 ∧
    spec_minor_units ⟨1999, 100⟩ = 1999 ∧
    amount_in_paise ⟨100, 1⟩ = 10000 :=
  ⟨by decide, by decide, by decide⟩

/-- C2: the reschedule three-step gate cannot be collapsed: approving without
a pending request, applying without approval, and requesting while
ineligible each fail with their specific ValidationError message, and in
each failure case the consultation record is left entirely unchanged (the
error carries no updated record; the guard precedes every assignment in the
source). -/
theorem reschedule_gate_not_collapsible :
    ∀ (c : Consultation) (now : ℤ) (u : ℕ) (reason : String) (d t : ℤ),
      (is_eligible_for_reschedule c now = false →
        request_reschedule c now u reason =
          Except.error "This consultation is not eligible for reschedule") ∧
      (c.reschedule_requested = false →
        approve_reschedule c now u =
          Except.error "No reschedule request to approve") ∧
      (c.reschedule_approved = false →
        apply_reschedule c now d t reason =
          Except.error "Reschedule must be approved before applying") := by
  intro c now u reason d t
  refine ⟨fun h => ?_, fun h => ?_, fun h => ?_⟩
  · simp [request_reschedule, h]
  · simp [approve_reschedule, h]
  · simp [apply_reschedule, h]

/-- C2 witness: the three failures at concrete consultations. -/
theorem reschedule_gate_not_collapsible_witness :
    request_reschedule { baseConsultation with status := Status.completed } 864000 1 "r" =
      Except.error "This consultation is not eligible for reschedule" ∧
    approve_reschedule baseConsultation 864000 1 =
      Except.error "No reschedule request to approve" ∧
    apply_reschedule baseConsultation 864000 12 3600 "r" =
      Except.error "Reschedule must be approved before applying" :=
  ⟨(reschedule_gate_not_collapsible
      { baseConsultation with status := Status.completed } 864000 1 "r" 12 3600).1 (by decide),
   (reschedule_gate_not_collapsible baseConsultation 864000 1 "r" 12 3600).2.1 (by decide),
   (reschedule_gate_not_collapsible baseConsultation 864000 1 "r" 12 3600).2.2 (by decide)⟩

/-- C3: apply_reschedule on an approved consultation succeeds and produces a
history record whose old date and time are the pre-apply scheduled values,
whose new date, time and reason are the supplied arguments, and whose
requesting actor is the original requester; the consultation takes the new
schedule, the requested and approved flags and their timestamps are
cleared, the applied timestamp is set, the reason field is cleared and the
status becomes rescheduled. -/
theorem apply_reschedule_spec :
    ∀ (c : Consultation) (now new_date new_time : ℤ) (reason : String),
      c.reschedule_approved = true →
      okFlag (apply_reschedule c now new_date new_time reason) = true ∧
      ∀ c' rec, apply_reschedule c now new_date new_time reason = Except.ok (c', rec) →
        rec.old_date = c.scheduled_date ∧ rec.old_time = c.scheduled_time ∧
        rec.new_date = new_date ∧ rec.new_time = new_time ∧
        rec.reason = reason ∧ rec.requested_by = c.reschedule_requested_by ∧
        c'.scheduled_date = new_date ∧ c'.scheduled_time = new_time ∧
        c'.reschedule_requested = false ∧ c'.reschedule_approved = false ∧
        c'.reschedule_requested_at = none ∧ c'.reschedule_approved_at = none ∧
        c'.rescheduled_at = some now ∧ c'.reschedule_reason = "" ∧
        c'.status = Status.rescheduled := by
  intro c now nd nt r h
  constructor
  · simp [apply_reschedule, h, okFlag]
  · intro c' rec heq
    simp only [apply_reschedule, h, if_neg] at heq
    rw [if_neg (by simp [h])] at heq
    obtain ⟨hc, hr⟩ := Prod.mk.injEq .. ▸ Except.ok.inj heq
    subst hc
    subst hr
    simp

/-- C3 witness: a concrete approved consultation applies successfully. -/
theorem apply_reschedule_spec_witness :
    okFlag (apply_reschedule approvedConsultation 864000 12 3600 "new slot") = true :=
  (apply_reschedule_spec approvedConsultation 864000 12 3600 "new slot" (by decide)).1

/-- C4: the X-VERIFY header over a base64-encoded payload equals the
lowercase hex SHA-256 digest of the encoded payload, then the endpoint
path, then the salt key, followed by the literal separator and the salt
index; the digest part is always 64 lowercase hex characters, and the fixed
sandbox inputs reproduce a captured known-good vector (determinism is
definitional: the header is a pure function of its four inputs). -/
theorem x_verify_header_spec :
    ∀ (payloadJson endpoint salt_key salt_index : String),
      generate_x_verify_header (encode_base64 payloadJson) endpoint salt_key salt_index =
        sha256hexStr (encode_base64 payloadJson ++ endpoint ++ salt_key) ++ "###" ++ salt_index ∧
      (sha256hexStr (encode_base64 payloadJson ++ endpoint ++ salt_key)).length = 64 ∧
      (sha256hexStr (encode_base64 payloadJson ++ endpoint ++ salt_key)).data.all
        (fun ch => hexDigits.contains ch) = true ∧
      generate_x_verify_header (encode_base64 "p") "/pg/v1/pay" sandboxSaltKey "1" =
        "cf9610688d574c3a92cfb956426450b99dbae42b617c6dfb09a2fb42c1d28c0a###1" := by
  intro payloadJson endpoint salt_key salt_index
  refine ⟨rfl, sha256hexBytes_length _, sha256hexBytes_all_hex _, by decide⟩

/-- C5: webhook signature verification returns false whenever splitting the
header on the separator does not yield exactly two parts, and returns true
exactly when it does and the received hash equals the hex SHA-256 of the
raw payload concatenated with the salt key; hence any tampered payload
under a correctly formatted header is rejected. -/
theorem verify_webhook_signature_spec :
    ∀ (salt_key payload header : String),
      ((pySplit "###" header).length ≠ 2 →
        verify_webhook_signature salt_key payload header = false) ∧
      (verify_webhook_signature salt_key payload header = true ↔
        (pySplit "###" header).length = 2 ∧
        (pySplit "###" header).headD "" = sha256hexStr (payload ++ salt_key)) := by
  intro sk p hd
  have veq : ∀ l : List String, pySplit "###" hd = l →
      verify_webhook_signature sk p hd =
        (match l with
         | [received_hash, _salt_index] => sha256hexStr (p ++ sk) == received_hash
         | _ => false) := by
    intro l hl
    have hbase : verify_webhook_signature sk p hd =
        (match pySplit "###" hd with
         | [received_hash, _salt_index] => sha256hexStr (p ++ sk) == received_hash
         | _ => false) := rfl
    rw [hl] at hbase
    exact hbase
  cases hsplit : pySplit "###" hd with
  | nil =>
    have hv : verify_webhook_signature sk p hd = false := veq [] hsplit
    rw [hv]
    simp
  | cons a tl =>
    cases tl with
    | nil =>
      have hv : verify_webhook_signature sk p hd = false := veq [a] hsplit
      rw [hv]
      simp
    | cons b tl2 =>
      cases tl2 with
      | nil =>
        have hv : verify_webhook_signature sk p hd =
            (sha256hexStr (p ++ sk) == a) := veq [a, b] hsplit
        rw [hv]
        refine ⟨fun hlen => absurd rfl hlen, ?_, ?_⟩
        · intro h1
          exact ⟨rfl, (eq_of_beq h1).symm⟩
        · intro h2
          have ha : a = sha256hexStr (p ++ sk) := h2.2
          rw [ha]
          exact beq_self_eq_true _
      | cons cc tl3 =>
        have hv : verify_webhook_signature sk p hd = false :=
          veq (a :: b :: cc :: tl3) hsplit
        rw [hv]
        simp

/-- C5 witness: a header without the separator is rejected, the correctly
signed sandbox vector is accepted, and the same header over a tampered
payload is rejected. -/
theorem verify_webhook_signature_spec_witness :
    verify_webhook_signature sandboxSaltKey "x" "headerwithoutseparator" = false ∧
    verify_webhook_signature sandboxSaltKey "x"
      "bfa7fe5db0a3666f4fcaa7cf861b989695c6ed42647d630b00a575ef9af63bb2###1" = true ∧
    verify_webhook_signature sandboxSaltKey "tampered"
      "bfa7fe5db0a3666f4fcaa7cf861b989695c6ed42647d630b00a575ef9af63bb2###1" = false := by
  refine ⟨(verify_webhook_signature_spec sandboxSaltKey "x" "headerwithoutseparator").1
            (by decide),
          (verify_webhook_signature_spec sandboxSaltKey "x"
            "bfa7fe5db0a3666f4fcaa7cf861b989695c6ed42647d630b00a575ef9af63bb2###1").2.mpr
            ⟨by decide, by decide⟩, ?_⟩
  cases hv : verify_webhook_signature sandboxSaltKey "tampered"
      "bfa7fe5db0a3666f4fcaa7cf861b989695c6ed42647d630b00a575ef9af63bb2###1" with
  | false => rfl
  | true =>
    exact absurd ((verify_webhook_signature_spec sandboxSaltKey "tampered"
      "bfa7fe5db0a3666f4fcaa7cf861b989695c6ed42647d630b00a575ef9af63bb2###1").2.mp hv).2
      (by decide)

/-- C6 counterexample: two parts of the claim fail on the code.  First, the
no-crash guarantee is false for receipt numbers: a malformed stored receipt
number makes ConsultationReceipt.save raise an unhandled ValueError (its
int() call has no try/except and no prefix check).  Second, the fallback
scan does not find the maximum numeric suffix: with existing IDs CON9,
CON10 and ZZZ (the last ID, ZZZ, is not CON-prefixed), the maximum numeric
suffix is 10, so the claim implies the next ID CON011; the code takes the
lexicographically last CON-prefixed ID — CON9, since CON9 is greater than
CON10 in string order — parses its suffix 9, and produces CON010. -/
theorem id_generation_counterexample :
    generate_receipt_number (some "RCPB4D") =
      Except.error "ValueError: invalid literal for int() with base 10" ∧
    generate_consultation_id ["CON9", "CON10", "ZZZ"] = "CON010" ∧
    generate_consultation_id ["CON9", "CON10", "ZZZ"] ≠ "CON011" :=
  ⟨by rfl, by decide, by decide⟩

/-- C6 amended: consultation ID generation never crashes — when the last
stored ID does not start with CON the generator falls back to the numeric
suffix of the lexicographically last CON-prefixed ID (the maximum numeric
suffix only while suffix widths are uniform, see the counterexample), a
failed numeric parse restarts numbering at 1, and padding is 3 digits —
and receipt numbers are padded to 6 digits, but receipt generation has no
crash protection (see the counterexample). -/
theorem id_generation_amended :
    (∀ s : String, "CON".data.isPrefixOf s.data = true →
        pyIntL (s.data.drop 3) = none →
        generate_consultation_id [s] = "CON001") ∧
    generate_consultation_id [] = "CON001" ∧
    generate_consultation_id ["CON007"] = "CON008" ∧
    generate_consultation_id ["CON004", "XYZ"] = "CON005" ∧
    generate_consultation_id ["XYZ9"] = "CON001" ∧
    generate_receipt_number none = Except.ok "RCP000001" ∧
    generate_receipt_number (some "RCP000123") = Except.ok "RCP000124" := by
  refine ⟨?_, by decide, by decide, by decide, by decide, by rfl, by rfl⟩
  intro s hpre hparse
  have hlast : lexLast [s] = some s := rfl
  simp only [generate_consultation_id, hlast, hpre, if_true, hparse]
  decide

/-- C6 witness: the general restart-at-1 fallback at a concrete corrupted
ID. -/
theorem id_generation_amended_witness :
    generate_consultation_id ["CONGARBAGE"] = "CON001" :=
  id_generation_amended.1 "CONGARBAGE" (by decide) (by decide)

/-- C7: reschedule eligibility holds exactly when the status is neither
completed nor cancelled and the scheduled datetime is earlier than the
current time minus the one-hour grace period; concretely, a consultation
scheduled 30 minutes in the past is not eligible and one scheduled 2 hours
in the past is. -/
theorem is_eligible_for_reschedule_spec :
    (∀ (c : Consultation) (now : ℤ),
        is_eligible_for_reschedule c now = true ↔
          (c.status ≠ Status.completed ∧ c.status ≠ Status.cancelled ∧
           scheduled_datetime c < now - 3600)) ∧
    is_eligible_for_reschedule baseConsultation 864000 = false ∧
    is_eligible_for_reschedule twoHoursLate 864000 = true := by
  refine ⟨fun c now => ?_, by decide, by decide⟩
  unfold is_eligible_for_reschedule
  by_cases h : c.status = Status.completed ∨ c.status = Status.cancelled
  · rcases h with h | h <;> simp [h]
  · push_neg at h
    simp [h.1, h.2]

/-- C8: check-in on a consultation not in scheduled status is a no-op
returning false with the record unchanged; on a scheduled consultation it
returns true and sets the status to patient_checked_in, the check-in
timestamp and the acting user. -/
theorem check_in_patient_spec :
    ∀ (c : Consultation) (now : ℤ) (u : ℕ),
      (c.status ≠ Status.scheduled → check_in_patient c now u = (false, c)) ∧
      (c.status = Status.scheduled →
        check_in_patient c now u =
          (true, { c with status := Status.patient_checked_in,
                          checked_in_at := some now,
                          checked_in_by := some u })) := by
  intro c now u
  refine ⟨fun h => ?_, fun h => ?_⟩
  · simp [check_in_patient, h]
  · simp [check_in_patient, h]

/-- C8 witness: a no-op on an in-progress consultation and a successful
check-in on a scheduled one. -/
theorem check_in_patient_spec_witness :
    check_in_patient { baseConsultation with status := Status.in_progress } 864000 4 =
      (false, { baseConsultation with status := Status.in_progress }) ∧
    (check_in_patient baseConsultation 864000 4).1 = true := by
  refine ⟨(check_in_patient_spec
            { baseConsultation with status := Status.in_progress } 864000 4).1 (by decide), ?_⟩
  rw [(check_in_patient_spec baseConsultation 864000 4).2 rfl]

/-- C9: cancelling a consultation in any non-terminal status moves it to
cancelled and records the acting user, the reason and the cancellation
time. -/
theorem cancel_spec :
    ∀ (c : Consultation) (now : ℤ) (actor : ℕ) (reason : String),
      isTerminalStatus c.status = false →
      cancel c now actor reason =
        Except.ok { c with status := Status.cancelled,
                           cancelled_by := some actor,
                           cancellation_reason := reason,
                           cancelled_at := some now } := by
  intro c now a r h
  simp [cancel, h]

/-- C9 witness: cancelling a concrete scheduled consultation. -/
theorem cancel_spec_witness :
    cancel baseConsultation 864000 3 "clinic closed" =
      Except.ok { baseConsultation with status := Status.cancelled,
                                        cancelled_by := some 3,
                                        cancelled_at := some 864000,
                                        cancellation_reason := "clinic closed" } :=
  cancel_spec baseConsultation 864000 3 "clinic closed" (by decide)

/-- C10: marking a scheduled consultation ready succeeds without any prior
check-in and leaves the check-in timestamp and actor untouched; afterwards
the derived is_checked_in is true even though no check-in was ever
recorded. -/
theorem mark_ready_without_check_in_spec :
    ∀ (c : Consultation) (now : ℤ) (u : ℕ),
      c.status = Status.scheduled →
      (mark_ready_for_consultation c now u).1 = true ∧
      (mark_ready_for_consultation c now u).2.checked_in_at = c.checked_in_at ∧
      (mark_ready_for_consultation c now u).2.checked_in_by = c.checked_in_by ∧
      is_checked_in (mark_ready_for_consultation c now u).2 = true ∧
      (c.checked_in_at = none →
        (mark_ready_for_consultation c now u).2.checked_in_at = none) := by
  intro c now u h
  simp [mark_ready_for_consultation, h, is_checked_in]

/-- C10 witness: the fresh scheduled fixture ends up checked-in-by-status
with no check-in timestamp. -/
theorem mark_ready_without_check_in_spec_witness :
    (mark_ready_for_consultation baseConsultation 864000 5).2.checked_in_at = none ∧
    is_checked_in (mark_ready_for_consultation baseConsultation 864000 5).2 = true := by
  have h := mark_ready_without_check_in_spec baseConsultation 864000 5 rfl
  exact ⟨h.2.2.2.2 rfl, h.2.2.2.1⟩
